import Mathlib

/-!
Shallow embedding of the Chip-8 interpreter in `src/vm.py` and the timer in
`src/timer.py` of nicolaslazo/chip8-emu, together with theorems checking the
specification's claims against it.

Modelling conventions:
* Python integers are unbounded, so registers, the index register, the program
  counter and stack cells are `Int`.
* Python lists become `List Int`; `l[i]` on an in-range index is `l.getD i 0`
  and `l[i] = v` is `l.set i v`.
* `vm.py` stores instruction operands as lowercase hex strings; they become
  `List Char`.  Python's `int(s)` (decimal, raising `ValueError` on non-decimal
  text) and `int(s, 16)` become `Option`-valued parsers.
* A Python function that can raise becomes an `Option`-valued Lean function,
  `none` marking the raised exception.
-/

/-- Machine state of the `Chip8` class in `src/vm.py`: the sixteen `reg_v`
registers, `reg_i`, the pseudo-registers `reg_pc` and `reg_sp`, the 16-entry
`stack`, and the character string held by the `MemoryBuffer` defined at the
bottom of `vm.py` (that class keeps memory as one Python `str` of characters,
indexed at character granularity). -/
structure Chip8 where
  reg_v : List Int
  reg_i : Int
  reg_pc : Int
  reg_sp : Nat
  stack : List Int
  memory : List Char
deriving DecidableEq, Repr

/-- Value of Python's decimal digit test used by `int(s)`: `c` is one of the
characters 0-9. -/
def pyIsDecDigit (c : Char) : Bool :=
  '0' ≤ c ∧ c ≤ '9'

/-- Python's `int(s)` on a string of characters: parses a nonempty all-decimal
string in base 10, and raises `ValueError` (here `none`) otherwise.  Signs and
whitespace never occur in the operand strings of `vm.py`. -/
def pyIntDec (s : List Char) : Option Int :=
  if s ≠ [] ∧ s.all pyIsDecDigit then
    some (s.foldl (fun a c => a * 10 + ((c.toNat - 48 : Nat) : Int)) 0)
  else none

/-- Value of a lowercase or uppercase hex digit, `none` otherwise. -/
def pyHexDigitVal (c : Char) : Option Nat :=
  if '0' ≤ c ∧ c ≤ '9' then some (c.toNat - 48)
  else if 'a' ≤ c ∧ c ≤ 'f' then some (c.toNat - 87)
  else if 'A' ≤ c ∧ c ≤ 'F' then some (c.toNat - 55)
  else none

/-- Python's `int(s, 16)` on a string of characters: parses a nonempty hex
string, raising `ValueError` (here `none`) otherwise. -/
def pyIntHex (s : List Char) : Option Nat :=
  if s = [] then none
  else s.foldl (fun a c => do (← a) * 16 + (← pyHexDigitVal c)) (some 0)

/-- Method `move_to_next_instruction` of `Chip8`: `self.reg_pc += 16`.  The
`MemoryBuffer` in `vm.py` is a string addressed at one character per bit
(bytes are read as 8 characters, words as 16), so 16 address units are the two
bytes of one instruction. -/
def move_to_next_instruction (s : Chip8) : Chip8 :=
  { s with reg_pc := s.reg_pc + 16 }

/-- Method `push_to_stack` of `Chip8`: raises (`none`) when `reg_sp == 15`,
otherwise increments `reg_sp` first and then writes `stack[reg_sp]`. -/
def push_to_stack (s : Chip8) (value : Int) : Option Chip8 :=
  if s.reg_sp = 15 then none
  else some { s with reg_sp := s.reg_sp + 1,
                     stack := s.stack.set (s.reg_sp + 1) value }

/-- Method `pop_from_stack` of `Chip8`: raises (`none`) when `reg_sp == 0`,
otherwise returns `stack[reg_sp]` and decrements `reg_sp`. -/
def pop_from_stack (s : Chip8) : Option (Int × Chip8) :=
  if s.reg_sp = 0 then none
  else some (s.stack.getD s.reg_sp 0, { s with reg_sp := s.reg_sp - 1 })

/-- Handler `_instruction_1` (opcode 1nnn, JP addr): `self.reg_pc = int(addr)`.
Note the source parses the three hex characters with decimal `int`. -/
def _instruction_1 (addr : List Char) (s : Chip8) : Option Chip8 :=
  (pyIntDec addr).map (fun n => { s with reg_pc := n })

/-- Handler `_instruction_3` (opcode 3xkk, SE Vx byte): splits the operand as
`x = arg[0]; kk = arg[1:]`, parses both with decimal `int`, and skips the next
instruction when `reg_v[x] == kk`. -/
def _instruction_3 (arg : List Char) (s : Chip8) : Option Chip8 :=
  match arg with
  | [] => none
  | xc :: rest => do
    let x ← pyIntDec [xc]
    let kk ← pyIntDec rest
    if s.reg_v.getD x.toNat 0 = kk then pure (move_to_next_instruction s)
    else pure s

/-- Handler `_instruction_9` (opcode 9xy0, SNE Vx Vy): destructures the operand
string into the characters `x`, `y` and a last nibble, then skips when the two
characters differ (`if x != y`), without reading `reg_v`. -/
def _instruction_9 (arg : List Char) (s : Chip8) : Option Chip8 :=
  match arg with
  | [x, y, _c] => some (if x ≠ y then move_to_next_instruction s else s)
  | _ => none

/-- Handler `_instruction_8xy1` (OR Vx Vy):
`self.reg_v[x] = self.reg_v[x] | self.reg_v[y]`. -/
def _instruction_8xy1 (x y : Nat) (s : Chip8) : Chip8 :=
  { s with reg_v := s.reg_v.set x (Int.lor (s.reg_v.getD x 0) (s.reg_v.getD y 0)) }

/-- Handler `_instruction_8xy2` (AND Vx Vy):
`self.reg_v[x] = self.reg_v[x] & self.reg_v[y]`. -/
def _instruction_8xy2 (x y : Nat) (s : Chip8) : Chip8 :=
  { s with reg_v := s.reg_v.set x (Int.land (s.reg_v.getD x 0) (s.reg_v.getD y 0)) }

/-- Handler `_instruction_8xy3` (XOR Vx Vy):
`self.reg_v[x] = self.reg_v[x] ^ self.reg_v[y]`. -/
def _instruction_8xy3 (x y : Nat) (s : Chip8) : Chip8 :=
  { s with reg_v := s.reg_v.set x (Int.xor (s.reg_v.getD x 0) (s.reg_v.getD y 0)) }

/-- Handler `_instruction_8xy4` (ADD Vx Vy): `self.reg_v[x] += self.reg_v[y]`,
then if the sum exceeds 255 it subtracts 255 (not 256) and sets VF to 1,
otherwise it sets VF to 0. -/
def _instruction_8xy4 (x y : Nat) (s : Chip8) : Chip8 :=
  let v1 := s.reg_v.set x (s.reg_v.getD x 0 + s.reg_v.getD y 0)
  if v1.getD x 0 > 255 then
    { s with reg_v := (v1.set x (v1.getD x 0 - 255)).set 15 1 }
  else
    { s with reg_v := v1.set 15 0 }

/-- Handler `_instruction_8xy5` (SUB Vx Vy): first writes the not-borrow flag
into `reg_v[15]` (1 when `reg_v[x] > reg_v[y]`, else 0), and only then performs
`self.reg_v[x] -= self.reg_v[y]`, reading the registers after the flag write. -/
def _instruction_8xy5 (x y : Nat) (s : Chip8) : Chip8 :=
  let v1 := if s.reg_v.getD x 0 > s.reg_v.getD y 0 then s.reg_v.set 15 1
            else s.reg_v.set 15 0
  { s with reg_v := v1.set x (v1.getD x 0 - v1.getD y 0) }

/-- A Python value as it flows into `vm.py`'s helper `hex_to_binary`: either an
`int` or a `str`. -/
inductive PyVal where
  | int : Int → PyVal
  | str : List Char → PyVal
deriving DecidableEq, Repr

/-- Helper `hex_to_binary` of `vm.py`: `bin(int(data, 16))[2:]`.  `int(data, 16)`
requires `data` to be a string; on an `int` argument Python raises `TypeError`
(here `none`).  On a hex string it yields the binary digit characters. -/
def hex_to_binary : PyVal → Option (List Char)
  | PyVal.str s => (pyIntHex s).map (fun n => Nat.toDigits 2 n)
  | PyVal.int _ => none

/-- Python slice assignment `m[start:stop] = data` as done by
`MemoryBuffer.__setitem__` in `vm.py`: the data is truncated to the slice size
and spliced between `m[:start]` and `m[stop:]`.  Addresses reached through the
write path of the claims below are nonnegative, so they are taken as `Nat`. -/
def setSlice (m : List Char) (start stop : Nat) (data : List Char) : List Char :=
  m.take start ++ data.take (stop - start) ++ m.drop stop

/-- Method `MemoryBuffer._write_data_to_addr` of `vm.py`:
`self.memory[addr:addr+bits] = hex_to_binary(data)`, propagating the
`TypeError` that `hex_to_binary` raises on `int` data. -/
def _write_data_to_addr (m : List Char) (data : PyVal) (addr : Int) (bits : Nat) :
    Option (List Char) :=
  (hex_to_binary data).map (fun b => setSlice m addr.toNat (addr.toNat + bits) b)

/-- Method `MemoryBuffer.write_word_to_addr` of `vm.py`: a 16-unit write. -/
def write_word_to_addr (m : List Char) (data : PyVal) (addr : Int) :
    Option (List Char) :=
  _write_data_to_addr m data addr 16

/-- Handler `_instruction_Fx33` (LD B Vx): with `i_addr = self.reg_i`, performs
`write_word_to_addr((x // 100) % 10, i_addr)`,
`write_word_to_addr((x // 10) % 10, i_addr + 16)` and
`write_word_to_addr(x % 10, i_addr + 32)`.  Note the source passes the register
index `x` itself, an `int`, so every write raises `TypeError` inside
`hex_to_binary`. -/
def _instruction_Fx33 (x : Nat) (s : Chip8) : Option Chip8 := do
  let i_addr := s.reg_i
  let m1 ← write_word_to_addr s.memory (PyVal.int (((x : Int) / 100) % 10)) i_addr
  let m2 ← write_word_to_addr m1 (PyVal.int (((x : Int) / 10) % 10)) (i_addr + 16)
  let m3 ← write_word_to_addr m2 (PyVal.int ((x : Int) % 10)) (i_addr + 32)
  pure { s with memory := m3 }

/-- Handler `_instruction_Fx55` (LD [I] Vx): `for register_number in range(x)`
the body evaluates `self.reg_v[register_number]` and then the bare name
`reg_i`, which is bound nowhere in the function or module scope, so the first
iteration raises `NameError`.  For `x = 0` the range is empty and the state is
unchanged. -/
def _instruction_Fx55 (x : Nat) (s : Chip8) : Option Chip8 :=
  if x = 0 then some s else none

/-- Handler `_instruction_Fx65` (LD Vx [I]): `for register_number in range(x)`
the body evaluates the bare name `memory`, which is bound nowhere in the
function or module scope, so the first iteration raises `NameError`.  For
`x = 0` the range is empty and the state is unchanged. -/
def _instruction_Fx65 (x : Nat) (s : Chip8) : Option Chip8 :=
  if x = 0 then some s else none

/-- One pass of the countdown loop body in `Timer.run` of `src/timer.py`:
under the value lock, `if self.value > 0: self.value -= 1`. -/
def timer_tick (v : Int) : Int :=
  if v > 0 then v - 1 else v

/-- Method `Timer.set_value` of `src/timer.py`: overwrites the value under the
lock, with no range check. -/
def timer_set_value (_old new_value : Int) : Int :=
  new_value

/-- A convenience machine state: register file `v` zero-padded to the 16
entries the `Chip8` constructor allocates, zeroed index register,
`reg_pc = 512` as in the constructor, stack pointer 0, a zeroed 16-entry
stack, and empty memory (irrelevant to the claims evaluated on it). -/
def mkState (v : List Int) : Chip8 :=
  { reg_v := v ++ List.replicate (16 - v.length) 0, reg_i := 0, reg_pc := 512,
    reg_sp := 0, stack := List.replicate 16 0, memory := [] }

/-- Iterated `push_to_stack` of the value 0, to exercise the stack bound. -/
def pushN : Nat → Chip8 → Option Chip8
  | 0, s => some s
  | n + 1, s => (push_to_stack s 0) >>= pushN n

/-- Register file for the C2 counterexample: V0 = 10 and V15 = 3. -/
def sC2 : Chip8 :=
  mkState [10, 0, 0, 0, 0, 0, 0, 0, 0, 0, 0, 0, 0, 0, 0, 3]

/-- Reading a list at an index other than the one just written is unchanged. -/
theorem getD_set_of_ne (l : List Int) (i j : Nat) (a d : Int) (h : i ≠ j) :
    (l.set i a).getD j d = l.getD j d := by
  simp [List.getD_eq_getElem?_getD, List.getElem?_set_ne h]

/-- Reading a list at an in-range index just written returns the written value. -/
theorem getD_set_self_of_lt (l : List Int) (i : Nat) (a d : Int) (h : i < l.length) :
    (l.set i a).getD i d = a := by
  simp [List.getD_eq_getElem?_getD, List.getElem?_set_self h]

example : pyIntDec ['1', '2'] = some 12 := by decide
example : pyIntDec ['1', 'e'] = none := by decide
example : pyIntHex ['1', '2'] = some 18 := by decide

/-- C1: the claim says ADD Vx,Vy leaves `Vx = (Vx+Vy) % 256` with VF the carry.
On V0=200, V1=100 the code instead leaves V0 = 45, because the overflow branch
of `_instruction_8xy4` subtracts 255 rather than 256; the claimed value is
(200+100) % 256 = 44. -/
theorem claim_C1_add_overflow_bug :
    (_instruction_8xy4 0 1 (mkState [200, 100])).reg_v.getD 0 0 = 45 ∧
    (_instruction_8xy4 0 1 (mkState [200, 100])).reg_v.getD 15 0 = 1 ∧
    ((200 + 100 : Int) % 256) = 44 := by decide

/-- C2 counterexample: with x=0, y=15, V0=10 > V15=3 the claim demands
`V0_after = (10-3) % 256 = 7`, but `_instruction_8xy5` writes the flag into
V15 first and then subtracts the flag value, leaving V0 = 10 - 1 = 9. -/
theorem claim_C2_counterexample :
    sC2.reg_v.getD 0 0 > sC2.reg_v.getD 15 0 ∧
    (_instruction_8xy5 0 15 sC2).reg_v.getD 0 0 = 9 ∧
    ((sC2.reg_v.getD 0 0 - sC2.reg_v.getD 15 0) % 256 : Int) = 7 ∧
    (_instruction_8xy5 0 15 sC2).reg_v.getD 0 0 ≠
      (sC2.reg_v.getD 0 0 - sC2.reg_v.getD 15 0) % 256 := by decide

/-- C2 amended: for register indices x, y both different from 15 (so neither
operand aliases the flag register), with 8-bit register contents and Vx > Vy,
SUB Vx,Vy sets VF to 1 and leaves `Vx = (Vx - Vy) % 256`. -/
theorem claim_C2_sub_amended (s : Chip8) (x y : Nat) (hx : x < 15) (hy : y < 15)
    (hlen : s.reg_v.length = 16)
    (hxhi : s.reg_v.getD x 0 < 256) (hylo : 0 ≤ s.reg_v.getD y 0)
    (hgt : s.reg_v.getD y 0 < s.reg_v.getD x 0) :
    (_instruction_8xy5 x y s).reg_v.getD 15 0 = 1 ∧
    (_instruction_8xy5 x y s).reg_v.getD x 0 =
      (s.reg_v.getD x 0 - s.reg_v.getD y 0) % 256 := by
  have hx15 : x ≠ 15 := Nat.ne_of_lt hx
  have hy15 : y ≠ 15 := Nat.ne_of_lt hy
  unfold _instruction_8xy5
  rw [if_pos hgt]
  constructor
  · show ((s.reg_v.set 15 1).set x
        ((s.reg_v.set 15 1).getD x 0 - (s.reg_v.set 15 1).getD y 0)).getD 15 0 = 1
    rw [getD_set_of_ne _ _ _ _ _ hx15,
        getD_set_self_of_lt _ _ _ _ (by rw [hlen]; omega)]
  · show ((s.reg_v.set 15 1).set x
        ((s.reg_v.set 15 1).getD x 0 - (s.reg_v.set 15 1).getD y 0)).getD x 0 =
      (s.reg_v.getD x 0 - s.reg_v.getD y 0) % 256
    rw [getD_set_self_of_lt _ _ _ _ (by rw [List.length_set, hlen]; omega),
        getD_set_of_ne _ _ _ _ _ (Ne.symm hx15),
        getD_set_of_ne _ _ _ _ _ (Ne.symm hy15)]
    have h1 : 0 ≤ s.reg_v.getD x 0 - s.reg_v.getD y 0 := by omega
    have h2 : s.reg_v.getD x 0 - s.reg_v.getD y 0 < 256 := by omega
    exact (Int.emod_eq_of_lt h1 h2).symm

/-- Witness for C2 amended at x=0, y=1, V0=10, V1=3. -/
theorem claim_C2_witness :
    (_instruction_8xy5 0 1 (mkState [10, 3])).reg_v.getD 15 0 = 1 ∧
    (_instruction_8xy5 0 1 (mkState [10, 3])).reg_v.getD 0 0 =
      ((mkState [10, 3]).reg_v.getD 0 0 - (mkState [10, 3]).reg_v.getD 1 0) % 256 :=
  claim_C2_sub_amended (mkState [10, 3]) 0 1 (by decide) (by decide) (by decide)
    (by decide) (by decide) (by decide)

/-- C3: the claim says SE Vx,kk skips exactly when Vx equals the 8-bit
immediate kk.  The operand string 012 denotes x=0, kk=0x12=18; with V0 = 18
the claim demands a skip, but `_instruction_3` parses kk with decimal `int`,
compares 18 with 12, and leaves the state (so the program counter) unchanged. -/
theorem claim_C3_se_decimal_bug :
    pyIntHex ['1', '2'] = some 18 ∧
    (mkState [18]).reg_v.getD 0 0 = 18 ∧
    _instruction_3 ['0', '1', '2'] (mkState [18]) = some (mkState [18]) := by decide

/-- C4: the claim says pushes succeed up to depth 16 and the 17th push faults.
From a fresh state (`reg_sp = 0`) only 15 pushes succeed, reaching
`reg_sp = 15`; the 16th push raises the Full-stack fault since `push_to_stack`
rejects as soon as `reg_sp == 15` and slot 0 of the 16-entry stack is never
used.  Popping at depth 0 does raise, as the claim says. -/
theorem claim_C4_stack_capacity_bug :
    (pushN 15 (mkState [])).map Chip8.reg_sp = some 15 ∧
    pushN 16 (mkState []) = none ∧
    pop_from_stack (mkState []) = none := by decide

/-- C5: the claim says JP nnn sets PC to the 12-bit address nnn.  For the
operand string 123 (nnn = 0x123 = 291), `_instruction_1` parses with decimal
`int` and sets PC to 123 instead. -/
theorem claim_C5_jp_decimal_bug :
    pyIntHex ['1', '2', '3'] = some 291 ∧
    _instruction_1 ['1', '2', '3'] (mkState []) =
      some { mkState [] with reg_pc := 123 } ∧
    (123 : Int) ≠ 291 := by decide

/-- C6: the claim says SNE Vx,Vy skips exactly when the register values
differ.  With the operand string 010 and V0 = V1 = 5 the register values are
equal, yet `_instruction_9` compares the operand characters 0 and 1 and skips
anyway. -/
theorem claim_C6_sne_compares_nibbles_bug :
    (mkState [5, 5]).reg_v.getD 0 0 = (mkState [5, 5]).reg_v.getD 1 0 ∧
    _instruction_9 ['0', '1', '0'] (mkState [5, 5]) =
      some (move_to_next_instruction (mkState [5, 5])) ∧
    (move_to_next_instruction (mkState [5, 5])).reg_pc ≠ (mkState [5, 5]).reg_pc := by
  decide

/-- C7: the claim says Fx33 stores the BCD digits of Vx at I, I+1, I+2.  For
every x and every state, `_instruction_Fx33` raises a `TypeError` (it hands the
`int`-valued digit of the register index x to `hex_to_binary`, whose
`int(data, 16)` call rejects non-strings), so nothing is ever written. -/
theorem claim_C7_bcd_raises (x : Nat) (s : Chip8) :
    _instruction_Fx33 x s = none := rfl

/-- C8: the claim says Fx65 then Fx55 round-trips V0..Vx through memory at I.
For x = 1 (and any x ≥ 1) both handlers raise a `NameError` on the undefined
bare names `memory` and `reg_i` in their loop bodies; for x = 0 the loops run
zero times, so register V0 is not transferred either. -/
theorem claim_C8_roundtrip_raises :
    (∀ s : Chip8, _instruction_Fx65 1 s = none) ∧
    (∀ s : Chip8, _instruction_Fx55 1 s = none) ∧
    (∀ s : Chip8, _instruction_Fx65 0 s = some s) ∧
    (∀ s : Chip8, _instruction_Fx55 0 s = some s) :=
  ⟨fun _ => rfl, fun _ => rfl, fun _ => rfl, fun _ => rfl⟩

/-- C9: from any starting value N in 0..255, after any number k of background
decrement passes the timer value is still nonnegative; one pass subtracts 1
exactly when the value is positive and leaves it unchanged otherwise; and the
value saturates at 0: once 0, every further pass keeps it 0. -/
theorem claim_C9_timer_invariant (N : Int) (h0 : 0 ≤ N) (_h255 : N ≤ 255) (k : Nat) :
    0 ≤ timer_tick^[k] N ∧
    (∀ v : Int, 0 < v → timer_tick v = v - 1) ∧
    (∀ v : Int, v ≤ 0 → timer_tick v = v) ∧
    timer_tick^[k] 0 = 0 := by
  refine ⟨?_, ?_, ?_, ?_⟩
  · clear _h255
    induction k with
    | zero => simpa using h0
    | succ n ih =>
      rw [Function.iterate_succ_apply']
      generalize timer_tick^[n] N = t at ih ⊢
      unfold timer_tick
      split <;> omega
  · intro v hv
    unfold timer_tick
    rw [if_pos hv]
  · intro v hv
    unfold timer_tick
    rw [if_neg (by omega)]
  · induction k with
    | zero => rfl
    | succ n ih =>
      rw [Function.iterate_succ_apply', ih]
      rfl

/-- Witness for C9 at N = 5 after 3 decrement passes. -/
theorem claim_C9_witness : 0 ≤ timer_tick^[3] (5 : Int) :=
  (claim_C9_timer_invariant 5 (by decide) (by decide) 3).1

/-- C10: for x different from 15, each of OR Vx,Vy, AND Vx,Vy and XOR Vx,Vy
modifies only register Vx: any register with index j other than x (in
particular VF = V15), the index register, the program counter, the stack
pointer, the stack and memory are unchanged. -/
theorem claim_C10_bitop_frame (s : Chip8) (x y j : Nat) (hx : x ≠ 15) (hj : j ≠ x) :
    ((_instruction_8xy1 x y s).reg_v.getD j 0 = s.reg_v.getD j 0 ∧
     (_instruction_8xy1 x y s).reg_v.getD 15 0 = s.reg_v.getD 15 0 ∧
     (_instruction_8xy1 x y s).reg_i = s.reg_i ∧
     (_instruction_8xy1 x y s).reg_pc = s.reg_pc ∧
     (_instruction_8xy1 x y s).reg_sp = s.reg_sp ∧
     (_instruction_8xy1 x y s).stack = s.stack ∧
     (_instruction_8xy1 x y s).memory = s.memory) ∧
    ((_instruction_8xy2 x y s).reg_v.getD j 0 = s.reg_v.getD j 0 ∧
     (_instruction_8xy2 x y s).reg_v.getD 15 0 = s.reg_v.getD 15 0 ∧
     (_instruction_8xy2 x y s).reg_i = s.reg_i ∧
     (_instruction_8xy2 x y s).reg_pc = s.reg_pc ∧
     (_instruction_8xy2 x y s).reg_sp = s.reg_sp ∧
     (_instruction_8xy2 x y s).stack = s.stack ∧
     (_instruction_8xy2 x y s).memory = s.memory) ∧
    ((_instruction_8xy3 x y s).reg_v.getD j 0 = s.reg_v.getD j 0 ∧
     (_instruction_8xy3 x y s).reg_v.getD 15 0 = s.reg_v.getD 15 0 ∧
     (_instruction_8xy3 x y s).reg_i = s.reg_i ∧
     (_instruction_8xy3 x y s).reg_pc = s.reg_pc ∧
     (_instruction_8xy3 x y s).reg_sp = s.reg_sp ∧
     (_instruction_8xy3 x y s).stack = s.stack ∧
     (_instruction_8xy3 x y s).memory = s.memory) := by
  refine ⟨⟨?_, ?_, rfl, rfl, rfl, rfl, rfl⟩,
          ⟨?_, ?_, rfl, rfl, rfl, rfl, rfl⟩,
          ⟨?_, ?_, rfl, rfl, rfl, rfl, rfl⟩⟩ <;>
    first
      | exact getD_set_of_ne _ _ _ _ _ (Ne.symm hj)
      | exact getD_set_of_ne _ _ _ _ _ hx

/-- Witness for C10 at x=0, y=1, j=2 on a concrete state. -/
theorem claim_C10_witness :
    (0 : Nat) ≠ 15 ∧
    (_instruction_8xy1 0 1 (mkState [7, 9])).reg_v.getD 2 0 =
      (mkState [7, 9]).reg_v.getD 2 0 :=
  ⟨by decide, (claim_C10_bitop_frame (mkState [7, 9]) 0 1 2 (by decide) (by decide)).1.1⟩
